import Mathlib

/-!
# Verification of the github_contribution_tools analyzer scripts

This file is a shallow embedding, in Lean 4, of the calendar arithmetic,
aggregation pipelines, HTTP-request control flow, argument handling and
file-writing behaviour of the six Python scripts under `src/analyzers/`:

* `monthly_productivity_analysis.py`
* `monthly_code_metrics_analysis.py`
* `fetch_commit_contributions_2025.py`
* `lifetime_contribution_analysis.py`
* `work_summary.py`
* `yearly_contribution_summary.py`

Floating-point arithmetic of the scripts is modelled by exact rational
arithmetic (`ℚ`); integer counters by `ℤ`/`ℕ`.  Python dictionaries built by
`defaultdict` accumulation over a list are modelled by their graph: the value
the finished dictionary associates to a key equals a filter/sum over the
input list, which is exactly what the accumulating loops compute.
-/

/-! ## Calendar arithmetic

The scripts call `datetime.date.isocalendar()` and `strftime("%Y-%m")` /
`strftime("%A")` to build their grouping keys.  The following definitions
reimplement the proleptic-Gregorian calendar and the ISO-8601 week rule used
by Python's `datetime`; they were checked against `datetime.isocalendar` on
sample dates (see the evaluation theorems below).
-/

/-- Gregorian leap-year test, as in Python's `datetime`. -/
def isLeap (y : ℕ) : Bool :=
  (y % 4 == 0 && y % 100 != 0) || y % 400 == 0

/-- Number of days of month `m` in year `y`. -/
def daysInMonth (y m : ℕ) : ℕ :=
  if m = 2 then (if isLeap y then 29 else 28)
  else if m = 4 ∨ m = 6 ∨ m = 9 ∨ m = 11 then 30
  else 31

/-- Ordinal day of the year (Jan 1 ↦ 1). -/
def dayOfYear (y m d : ℕ) : ℕ :=
  d + ((List.range (m - 1)).map (fun i => daysInMonth y (i + 1))).sum

/-- Number of leap years strictly before year `y` (proleptic Gregorian). -/
def leapsBefore (y : ℕ) : ℕ :=
  (y - 1) / 4 - (y - 1) / 100 + (y - 1) / 400

/-- Day number in the proleptic Gregorian calendar, with `0001-01-01 ↦ 1`. -/
def rataDie (y m d : ℕ) : ℕ :=
  365 * (y - 1) + leapsBefore y + dayOfYear y m d

/-- ISO weekday: Monday ↦ 1, …, Sunday ↦ 7 (0001-01-01 was a Monday). -/
def isoWeekday (y m d : ℕ) : ℕ :=
  (rataDie y m d - 1) % 7 + 1

/-- Weekday of January 1 of year `y`, as an offset used by the ISO week rule. -/
def pYear (y : ℕ) : ℕ :=
  (y + y / 4 - y / 100 + y / 400) % 7

/-- Number of ISO weeks in year `y` (52 or 53). -/
def isoWeeksInYear (y : ℕ) : ℕ :=
  if pYear y = 4 ∨ pYear (y - 1) = 3 then 53 else 52

/-- `date.isocalendar()`: the ISO year, ISO week number and ISO weekday of a
Gregorian date.  Checked against Python's `datetime` on sample dates. -/
def isocalendar (y m d : ℕ) : ℕ × ℕ × ℕ :=
  let o := dayOfYear y m d
  let wd := isoWeekday y m d
  let w := (o + 10 - wd) / 7
  if w = 0 then (y - 1, isoWeeksInYear (y - 1), wd)
  else if w > isoWeeksInYear y then (y + 1, 1, wd)
  else (y, w, wd)

/-- A calendar date, as carried in the `date` fields of the fetched JSON. -/
structure Date where
  year : ℕ
  month : ℕ
  day : ℕ
deriving DecidableEq

/-- The ISO-week grouping key `f"{iso_year}-W{iso_week:02d}"` of a date,
modelled as the pair (ISO year, ISO week). -/
def week_key (d : Date) : ℕ × ℕ :=
  ((isocalendar d.year d.month d.day).1, (isocalendar d.year d.month d.day).2.1)

/-- The month grouping key `date.strftime("%Y-%m")` of a date, modelled as
the pair (year, month). -/
def month_key (d : Date) : ℕ × ℕ :=
  (d.year, d.month)

/-- The weekday name `date.strftime("%A")` of a date. -/
def weekdayName (d : Date) : String :=
  match isoWeekday d.year d.month d.day with
  | 1 => "Monday"
  | 2 => "Tuesday"
  | 3 => "Wednesday"
  | 4 => "Thursday"
  | 5 => "Friday"
  | 6 => "Saturday"
  | _ => "Sunday"

/-! ## Generic lemmas about key-grouped sums

A `defaultdict` accumulation `for x in l: dict[f x] += g x` yields, for each
key `k`, the value `((l.filter (fun x => f x = k)).map g).sum`.  Iterating
over the finished dictionary visits each key once; the lemmas below relate
such a key-indexed sum to the plain sum over the list.
-/

theorem sum_map_ite_eq_zero_of_not_mem {κ M : Type} [DecidableEq κ]
    [AddCommMonoid M] (keys : List κ) (k : κ) (v : M) (hk : k ∉ keys) :
    (keys.map (fun k2 => if k = k2 then v else 0)).sum = 0 := by
  induction keys with
  | nil => simp
  | cons a t ih =>
    simp only [List.mem_cons, not_or] at hk
    simp [List.map_cons, List.sum_cons, if_neg hk.1, ih hk.2]

theorem sum_map_ite_eq_of_mem {κ M : Type} [DecidableEq κ] [AddCommMonoid M]
    (keys : List κ) (k : κ) (v : M) (hnd : keys.Nodup) (hk : k ∈ keys) :
    (keys.map (fun k2 => if k = k2 then v else 0)).sum = v := by
  induction keys with
  | nil => cases hk
  | cons a t ih =>
    rcases List.mem_cons.mp hk with h | h
    · subst h
      have hnot : k ∉ t := (List.nodup_cons.mp hnd).1
      simp [sum_map_ite_eq_zero_of_not_mem t k v hnot]
    · have hne : k ≠ a := by
        rintro rfl
        exact (List.nodup_cons.mp hnd).1 h
      have := ih (List.nodup_cons.mp hnd).2 h
      simp [if_neg hne, this]

theorem sum_map_add_distrib {α M : Type} [AddCommMonoid M] (l : List α)
    (f g : α → M) :
    (l.map (fun x => f x + g x)).sum = (l.map f).sum + (l.map g).sum := by
  induction l with
  | nil => simp
  | cons a t ih => simp [ih]; abel

/-- Summing the fiber sums over a duplicate-free list of keys covering the
list recovers the plain sum. -/
theorem sum_fiber {α κ M : Type} [DecidableEq κ] [AddCommMonoid M]
    (f : α → κ) (g : α → M) (keys : List κ) (hnd : keys.Nodup) :
    ∀ l : List α, (∀ x ∈ l, f x ∈ keys) →
      (keys.map (fun k => ((l.filter (fun x => f x = k)).map g).sum)).sum
        = (l.map g).sum := by
  intro l
  induction l with
  | nil => simp
  | cons x t ih =>
    intro hcov
    have hx : f x ∈ keys := hcov x (List.mem_cons_self x t)
    have ht : ∀ y ∈ t, f y ∈ keys := fun y hy => hcov y (List.mem_cons_of_mem x hy)
    have hstep : ∀ k : κ,
        (((x :: t).filter (fun z => f z = k)).map g).sum
          = (if f x = k then g x else 0)
            + ((t.filter (fun z => f z = k)).map g).sum := by
      intro k
      by_cases h : f x = k
      · simp [List.filter_cons, h]
      · simp [List.filter_cons, h]
    calc (keys.map (fun k => (((x :: t).filter (fun z => f z = k)).map g).sum)).sum
        = (keys.map (fun k => (if f x = k then g x else 0)
            + ((t.filter (fun z => f z = k)).map g).sum)).sum := by
          exact congrArg List.sum (List.map_congr_left (fun k _ => hstep k))
      _ = (keys.map (fun k => if f x = k then g x else 0)).sum
            + (keys.map (fun k => ((t.filter (fun z => f z = k)).map g).sum)).sum := by
          exact sum_map_add_distrib keys _ _
      _ = g x + (t.map g).sum := by
          rw [sum_map_ite_eq_of_mem keys (f x) (g x) hnd hx, ih ht]
      _ = ((x :: t).map g).sum := by simp

/-! ## `monthly_productivity_analysis.py`

The script flattens the fetched contribution calendar into
`all_contributions`, a list of `{"date": ..., "count": ...}` records, groups
it by ISO week and, inside each week, by month
(`weekly_stats[week_key]["days_by_month"][month_key]`), and then folds the
week buckets into `monthly_stats`.
-/

namespace MonthlyProductivityAnalysis

/-- One record of `all_contributions`: one fetched contribution-calendar day. -/
structure ContribDay where
  date : Date
  count : ℤ
deriving DecidableEq

/-- `weekly_stats[w]["days_by_month"][m]["count"]`: how many records of
`all_contributions` fell in ISO week `w` and month `m`. -/
def days_by_month_count (all_contributions : List ContribDay) (w m : ℕ × ℕ) : ℕ :=
  (all_contributions.filter (fun c => week_key c.date = w ∧ month_key c.date = m)).length

/-- `weekly_stats[w]["days_by_month"][m]["contributions"]`: the contribution
counts accumulated in ISO week `w` for month `m`. -/
def days_by_month_contributions (all_contributions : List ContribDay) (w m : ℕ × ℕ) : ℤ :=
  ((all_contributions.filter (fun c => week_key c.date = w ∧ month_key c.date = m)).map
    (fun c => c.count)).sum

/-- The distinct ISO-week keys of `weekly_stats` (each key is visited once by
`for week_key, week_data in weekly_stats.items()`). -/
def weekKeys (all_contributions : List ContribDay) : List (ℕ × ℕ) :=
  (all_contributions.map (fun c => week_key c.date)).dedup

/-- The distinct month keys of `monthly_stats` (visited once each by
`for month_key, stats in sorted_months`). -/
def monthKeys (all_contributions : List ContribDay) : List (ℕ × ℕ) :=
  (all_contributions.map (fun c => month_key c.date)).dedup

/-- `total_days_in_week`: `sum(m["count"] for m in week_data["days_by_month"].values())`. -/
def total_days_in_week (all_contributions : List ContribDay) (w : ℕ × ℕ) : ℕ :=
  (all_contributions.filter (fun c => week_key c.date = w)).length

/-- The month keys of the buckets of one week
(`week_data["days_by_month"].items()`). -/
def monthKeysOfWeek (all_contributions : List ContribDay) (w : ℕ × ℕ) : List (ℕ × ℕ) :=
  ((all_contributions.filter (fun c => week_key c.date = w)).map
    (fun c => month_key c.date)).dedup

/-- `week_fraction = days_in_this_month / 7.0` for the bucket of ISO week `w`
and month `m`. -/
def week_fraction (all_contributions : List ContribDay) (w m : ℕ × ℕ) : ℚ :=
  (days_by_month_count all_contributions w m : ℚ) / 7

/-- `monthly_stats[m]["total"]`: the sum, over the week loop, of the bucket
contributions assigned to month `m`. -/
def monthly_total (all_contributions : List ContribDay) (m : ℕ × ℕ) : ℤ :=
  ((weekKeys all_contributions).map
    (fun w => days_by_month_contributions all_contributions w m)).sum

/-- `monthly_stats[m]["week_fraction"]`: the week fractions accumulated for
month `m` over the week loop. -/
def monthly_week_fraction (all_contributions : List ContribDay) (m : ℕ × ℕ) : ℚ :=
  ((weekKeys all_contributions).map
    (fun w => week_fraction all_contributions w m)).sum

/-- `total_workdays = stats["week_fraction"] * workdays_per_week`. -/
def total_workdays (all_contributions : List ContribDay) (m : ℕ × ℕ)
    (workdays_per_week : ℚ) : ℚ :=
  monthly_week_fraction all_contributions m * workdays_per_week

/-- `avg_per_workday = stats["total"] / total_workdays if total_workdays > 0 else 0`. -/
def avg_per_workday (all_contributions : List ContribDay) (m : ℕ × ℕ)
    (workdays_per_week : ℚ) : ℚ :=
  if total_workdays all_contributions m workdays_per_week > 0 then
    (monthly_total all_contributions m : ℚ) / total_workdays all_contributions m workdays_per_week
  else 0

/-- The pair-keyed filter of a week/month bucket factors through the
month filter. -/
theorem filter_week_month (all_contributions : List ContribDay) (w m : ℕ × ℕ) :
    all_contributions.filter (fun c => week_key c.date = w ∧ month_key c.date = m)
      = (all_contributions.filter (fun c => month_key c.date = m)).filter
          (fun c => week_key c.date = w) := by
  rw [List.filter_filter]
  refine List.filter_congr (fun c _ => ?_)
  by_cases h1 : week_key c.date = w <;> by_cases h2 : month_key c.date = m <;>
    simp [h1, h2]

/-- Collapsing the week-then-month grouping: the total assigned to month `m`
is the plain sum of the counts of the fetched days of month `m`. -/
theorem monthly_total_eq_direct (all_contributions : List ContribDay) (m : ℕ × ℕ) :
    monthly_total all_contributions m
      = ((all_contributions.filter (fun c => month_key c.date = m)).map
          (fun c => c.count)).sum := by
  have hcov : ∀ c ∈ all_contributions.filter (fun c => month_key c.date = m),
      week_key c.date ∈ weekKeys all_contributions := by
    intro c hc
    have hmem : c ∈ all_contributions := (List.mem_filter.mp hc).1
    unfold weekKeys
    rw [List.mem_dedup]
    exact List.mem_map_of_mem (fun c => week_key c.date) hmem
  have hmain := sum_fiber (fun c => week_key c.date) (fun c => c.count)
    (weekKeys all_contributions) (List.nodup_dedup _)
    (all_contributions.filter (fun c => month_key c.date = m)) hcov
  unfold monthly_total days_by_month_contributions
  rw [← hmain]
  refine congrArg List.sum (List.map_congr_left (fun w _ => ?_))
  rw [filter_week_month]

end MonthlyProductivityAnalysis

/-- Claim C2: the week-then-month bucketing of the monthly productivity
analysis conserves totals: for every input list of contribution days, the sum
over all months of `monthly_stats[month]["total"]` equals the sum of the
per-day contribution counts of every fetched day. -/
theorem c2_monthly_bucketing_conserves_totals
    (all_contributions : List MonthlyProductivityAnalysis.ContribDay) :
    ((MonthlyProductivityAnalysis.monthKeys all_contributions).map
      (fun m => MonthlyProductivityAnalysis.monthly_total all_contributions m)).sum
      = (all_contributions.map (fun c => c.count)).sum := by
  have hcov : ∀ c ∈ all_contributions,
      month_key c.date ∈ MonthlyProductivityAnalysis.monthKeys all_contributions := by
    intro c hc
    exact List.mem_dedup.mpr (List.mem_map_of_mem (fun c => month_key c.date) hc)
  calc ((MonthlyProductivityAnalysis.monthKeys all_contributions).map
        (fun m => MonthlyProductivityAnalysis.monthly_total all_contributions m)).sum
      = ((MonthlyProductivityAnalysis.monthKeys all_contributions).map
        (fun m => ((all_contributions.filter (fun c => month_key c.date = m)).map
          (fun c => c.count)).sum)).sum := by
        exact congrArg List.sum (List.map_congr_left (fun m _ =>
          MonthlyProductivityAnalysis.monthly_total_eq_direct all_contributions m))
    _ = (all_contributions.map (fun c => c.count)).sum := by
        exact sum_fiber (fun c => month_key c.date) (fun c => c.count)
          (MonthlyProductivityAnalysis.monthKeys all_contributions)
          (List.nodup_dedup _) all_contributions hcov

/-! ## `monthly_code_metrics_analysis.py`

The script fetches the user's pull requests and groups them with the same
week-then-month structure, except that each record of the grouped list is a
*pull request* (dated by its `createdAt`), not a calendar day.  The bucket
field `"count"` therefore counts PRs, although the aggregation code reads it
back as `days_in_this_month` and divides it by 7 to obtain a "fraction of
the week".
-/

namespace MonthlyCodeMetricsAnalysis

/-- One node of `all_prs`: a fetched pull request (only the fields the
aggregation uses). -/
structure PullRequest where
  createdAt : Date
  additions : ℤ
  deletions : ℤ
deriving DecidableEq

/-- `weekly_stats[w]["days_by_month"][m]["count"]`: the number of PRs created
in ISO week `w` and month `m`. -/
def days_by_month_count (all_prs : List PullRequest) (w m : ℕ × ℕ) : ℕ :=
  (all_prs.filter (fun p => week_key p.createdAt = w ∧ month_key p.createdAt = m)).length

/-- `weekly_stats[w]["days_by_month"][m]["additions"]`. -/
def days_by_month_additions (all_prs : List PullRequest) (w m : ℕ × ℕ) : ℤ :=
  ((all_prs.filter (fun p => week_key p.createdAt = w ∧ month_key p.createdAt = m)).map
    (fun p => p.additions)).sum

/-- `weekly_stats[w]["days_by_month"][m]["deletions"]`. -/
def days_by_month_deletions (all_prs : List PullRequest) (w m : ℕ × ℕ) : ℤ :=
  ((all_prs.filter (fun p => week_key p.createdAt = w ∧ month_key p.createdAt = m)).map
    (fun p => p.deletions)).sum

/-- `weekly_stats[w]["days_by_month"][m]["total"]` (additions + deletions). -/
def days_by_month_total (all_prs : List PullRequest) (w m : ℕ × ℕ) : ℤ :=
  ((all_prs.filter (fun p => week_key p.createdAt = w ∧ month_key p.createdAt = m)).map
    (fun p => p.additions + p.deletions)).sum

/-- The distinct ISO-week keys of `weekly_stats`. -/
def weekKeys (all_prs : List PullRequest) : List (ℕ × ℕ) :=
  (all_prs.map (fun p => week_key p.createdAt)).dedup

/-- `week_fraction = days_in_this_month / 7.0`, where `days_in_this_month`
is the bucket field `"count"` — a PR count in this script. -/
def week_fraction (all_prs : List PullRequest) (w m : ℕ × ℕ) : ℚ :=
  (days_by_month_count all_prs w m : ℚ) / 7

/-- `monthly_stats[m]["additions"]`. -/
def monthly_additions (all_prs : List PullRequest) (m : ℕ × ℕ) : ℤ :=
  ((weekKeys all_prs).map (fun w => days_by_month_additions all_prs w m)).sum

/-- `monthly_stats[m]["deletions"]`. -/
def monthly_deletions (all_prs : List PullRequest) (m : ℕ × ℕ) : ℤ :=
  ((weekKeys all_prs).map (fun w => days_by_month_deletions all_prs w m)).sum

/-- `monthly_stats[m]["total"]`. -/
def monthly_total (all_prs : List PullRequest) (m : ℕ × ℕ) : ℤ :=
  ((weekKeys all_prs).map (fun w => days_by_month_total all_prs w m)).sum

/-- `monthly_stats[m]["week_fraction"]`. -/
def monthly_week_fraction (all_prs : List PullRequest) (m : ℕ × ℕ) : ℚ :=
  ((weekKeys all_prs).map (fun w => week_fraction all_prs w m)).sum

/-- `total_workdays = stats["week_fraction"] * workdays_per_week`. -/
def total_workdays (all_prs : List PullRequest) (m : ℕ × ℕ)
    (workdays_per_week : ℚ) : ℚ :=
  monthly_week_fraction all_prs m * workdays_per_week

/-- `avg_additions = stats["additions"] / total_workdays if total_workdays > 0 else 0`. -/
def avg_additions (all_prs : List PullRequest) (m : ℕ × ℕ)
    (workdays_per_week : ℚ) : ℚ :=
  if total_workdays all_prs m workdays_per_week > 0 then
    (monthly_additions all_prs m : ℚ) / total_workdays all_prs m workdays_per_week
  else 0

/-- `avg_deletions = stats["deletions"] / total_workdays if total_workdays > 0 else 0`. -/
def avg_deletions (all_prs : List PullRequest) (m : ℕ × ℕ)
    (workdays_per_week : ℚ) : ℚ :=
  if total_workdays all_prs m workdays_per_week > 0 then
    (monthly_deletions all_prs m : ℚ) / total_workdays all_prs m workdays_per_week
  else 0

/-- `avg_total = stats["total"] / total_workdays if total_workdays > 0 else 0`. -/
def avg_total (all_prs : List PullRequest) (m : ℕ × ℕ)
    (workdays_per_week : ℚ) : ℚ :=
  if total_workdays all_prs m workdays_per_week > 0 then
    (monthly_total all_prs m : ℚ) / total_workdays all_prs m workdays_per_week
  else 0

end MonthlyCodeMetricsAnalysis

/-- Claim C1: evaluation at the failing input.  In
`monthly_code_metrics_analysis.py`, two pull requests created on 2025-01-06
(ISO week (2025, 2), month (2025, 1)) make the bucket `"count"` — read back
as `days_in_this_month` — equal to the *PR count* 2, so the computed
`week_fraction` is `2/7`, although those records span exactly one tracked
calendar day, so the fraction of the week the claim (and the code's own
comments) describe is `1/7`.  In `monthly_productivity_analysis.py`, where
each record is one calendar day, the same date yields `1/7` as claimed. -/
theorem c1_metrics_week_fraction_counts_prs_not_days :
    MonthlyCodeMetricsAnalysis.week_fraction
        [⟨⟨2025, 1, 6⟩, 10, 2⟩, ⟨⟨2025, 1, 6⟩, 5, 1⟩] (2025, 2) (2025, 1) = 2 / 7
      ∧ (([⟨⟨2025, 1, 6⟩, 10, 2⟩, ⟨⟨2025, 1, 6⟩, 5, 1⟩] :
            List MonthlyCodeMetricsAnalysis.PullRequest).map
          (fun p => p.createdAt)).dedup.length = 1
      ∧ MonthlyProductivityAnalysis.week_fraction
          [⟨⟨2025, 1, 6⟩, 3⟩] (2025, 2) (2025, 1) = 1 / 7
      ∧ (2 : ℚ) / 7 ≠ 1 / 7 := by
  refine ⟨?_, by decide, ?_, by norm_num⟩
  · show ((MonthlyCodeMetricsAnalysis.days_by_month_count
      [⟨⟨2025, 1, 6⟩, 10, 2⟩, ⟨⟨2025, 1, 6⟩, 5, 1⟩] (2025, 2) (2025, 1) : ℕ) : ℚ) / 7 = 2 / 7
    norm_num [show MonthlyCodeMetricsAnalysis.days_by_month_count
      [⟨⟨2025, 1, 6⟩, 10, 2⟩, ⟨⟨2025, 1, 6⟩, 5, 1⟩] (2025, 2) (2025, 1) = 2 from by decide]
  · show ((MonthlyProductivityAnalysis.days_by_month_count
      [⟨⟨2025, 1, 6⟩, 3⟩] (2025, 2) (2025, 1) : ℕ) : ℚ) / 7 = 1 / 7
    norm_num [show MonthlyProductivityAnalysis.days_by_month_count
      [⟨⟨2025, 1, 6⟩, 3⟩] (2025, 2) (2025, 1) = 1 from by decide]

/-- The guarded average `total / tw if tw > 0 else 0` equals the exact
quotient when the (nonnegative) divisor is nonzero, and 0 when it is 0. -/
theorem guarded_div_spec (t wf wpw : ℚ) (hwf : 0 ≤ wf) (hw : 0 ≤ wpw) :
    (if wf * wpw > 0 then t / (wf * wpw) else 0) = t / (wf * wpw)
      ∧ (wf * wpw = 0 → (if wf * wpw > 0 then t / (wf * wpw) else 0) = 0) := by
  by_cases h : wf * wpw > 0
  · refine ⟨by rw [if_pos h], fun he => ?_⟩
    rw [he] at h
    exact absurd h (lt_irrefl 0)
  · have hz : wf * wpw = 0 := le_antisymm (not_lt.mp h) (mul_nonneg hwf hw)
    refine ⟨?_, fun _ => by rw [if_neg h]⟩
    rw [if_neg h, hz, div_zero]

theorem prod_monthly_week_fraction_nonneg
    (all_contributions : List MonthlyProductivityAnalysis.ContribDay) (m : ℕ × ℕ) :
    0 ≤ MonthlyProductivityAnalysis.monthly_week_fraction all_contributions m := by
  refine List.sum_nonneg ?_
  intro x hx
  rcases List.mem_map.mp hx with ⟨w, _, rfl⟩
  unfold MonthlyProductivityAnalysis.week_fraction
  positivity

theorem metrics_monthly_week_fraction_nonneg
    (all_prs : List MonthlyCodeMetricsAnalysis.PullRequest) (m : ℕ × ℕ) :
    0 ≤ MonthlyCodeMetricsAnalysis.monthly_week_fraction all_prs m := by
  refine List.sum_nonneg ?_
  intro x hx
  rcases List.mem_map.mp hx with ⟨w, _, rfl⟩
  unfold MonthlyCodeMetricsAnalysis.week_fraction
  positivity

/-- Claim C3: workday normalization.  For every month, in both monthly
analyses, the reported average per workday equals the month's accumulated
total divided by (accumulated week fraction × workdays-per-week), and equals
0 whenever that product is 0.  (The quotient is exact rational division,
which is 0 on a zero divisor.) -/
theorem c3_workday_normalization
    (all_contributions : List MonthlyProductivityAnalysis.ContribDay)
    (all_prs : List MonthlyCodeMetricsAnalysis.PullRequest)
    (m : ℕ × ℕ) (workdays_per_week : ℚ) (hw : 0 ≤ workdays_per_week) :
    (MonthlyProductivityAnalysis.avg_per_workday all_contributions m workdays_per_week
        = (MonthlyProductivityAnalysis.monthly_total all_contributions m : ℚ)
            / (MonthlyProductivityAnalysis.monthly_week_fraction all_contributions m
                * workdays_per_week)
      ∧ (MonthlyProductivityAnalysis.monthly_week_fraction all_contributions m
            * workdays_per_week = 0 →
          MonthlyProductivityAnalysis.avg_per_workday all_contributions m
            workdays_per_week = 0))
    ∧ (MonthlyCodeMetricsAnalysis.avg_additions all_prs m workdays_per_week
        = (MonthlyCodeMetricsAnalysis.monthly_additions all_prs m : ℚ)
            / (MonthlyCodeMetricsAnalysis.monthly_week_fraction all_prs m
                * workdays_per_week)
      ∧ (MonthlyCodeMetricsAnalysis.monthly_week_fraction all_prs m
            * workdays_per_week = 0 →
          MonthlyCodeMetricsAnalysis.avg_additions all_prs m workdays_per_week = 0))
    ∧ (MonthlyCodeMetricsAnalysis.avg_deletions all_prs m workdays_per_week
        = (MonthlyCodeMetricsAnalysis.monthly_deletions all_prs m : ℚ)
            / (MonthlyCodeMetricsAnalysis.monthly_week_fraction all_prs m
                * workdays_per_week)
      ∧ (MonthlyCodeMetricsAnalysis.monthly_week_fraction all_prs m
            * workdays_per_week = 0 →
          MonthlyCodeMetricsAnalysis.avg_deletions all_prs m workdays_per_week = 0))
    ∧ (MonthlyCodeMetricsAnalysis.avg_total all_prs m workdays_per_week
        = (MonthlyCodeMetricsAnalysis.monthly_total all_prs m : ℚ)
            / (MonthlyCodeMetricsAnalysis.monthly_week_fraction all_prs m
                * workdays_per_week)
      ∧ (MonthlyCodeMetricsAnalysis.monthly_week_fraction all_prs m
            * workdays_per_week = 0 →
          MonthlyCodeMetricsAnalysis.avg_total all_prs m workdays_per_week = 0)) := by
  have hp := prod_monthly_week_fraction_nonneg all_contributions m
  have hm := metrics_monthly_week_fraction_nonneg all_prs m
  refine ⟨?_, ?_, ?_, ?_⟩
  · exact guarded_div_spec (MonthlyProductivityAnalysis.monthly_total all_contributions m : ℚ)
      _ _ hp hw
  · exact guarded_div_spec (MonthlyCodeMetricsAnalysis.monthly_additions all_prs m : ℚ)
      _ _ hm hw
  · exact guarded_div_spec (MonthlyCodeMetricsAnalysis.monthly_deletions all_prs m : ℚ)
      _ _ hm hw
  · exact guarded_div_spec (MonthlyCodeMetricsAnalysis.monthly_total all_prs m : ℚ)
      _ _ hm hw

/-- Witness for C3 at a concrete input: one contribution day (2025-01-06,
count 3), month 2025-01, 5 workdays per week. -/
theorem c3_workday_normalization_witness :
    0 ≤ (5 : ℚ)
      ∧ MonthlyProductivityAnalysis.avg_per_workday
          [⟨⟨2025, 1, 6⟩, 3⟩] (2025, 1) 5
        = (MonthlyProductivityAnalysis.monthly_total [⟨⟨2025, 1, 6⟩, 3⟩] (2025, 1) : ℚ)
            / (MonthlyProductivityAnalysis.monthly_week_fraction
                [⟨⟨2025, 1, 6⟩, 3⟩] (2025, 1) * 5) :=
  ⟨by norm_num,
    (c3_workday_normalization [⟨⟨2025, 1, 6⟩, 3⟩] [] (2025, 1) 5 (by norm_num)).1.1⟩

/-! ## The 6-month moving average

Both monthly scripts draw a trend line when at least `window_size = 6`
active months exist:

    moving_avg = []
    for i in range(len(averages)):
        if i < window_size - 1:
            moving_avg.append(sum(averages[:i+1]) / (i+1))
        else:
            moving_avg.append(sum(averages[i-window_size+1:i+1]) / window_size)
-/

/-- `window_size = 6`. -/
def window_size : ℕ := 6

/-- The `moving_avg` list computed by both monthly scripts from the plotted
series `averages`. -/
def moving_avg (averages : List ℚ) : List ℚ :=
  (List.range averages.length).map fun i =>
    if i < window_size - 1 then
      (averages.take (i + 1)).sum / ((i + 1 : ℕ) : ℚ)
    else
      ((averages.drop (i - (window_size - 1))).take window_size).sum
        / ((window_size : ℕ) : ℚ)

theorem getD_map_range (n i : ℕ) (f : ℕ → ℚ) (h : i < n) :
    ((List.range n).map f).getD i 0 = f i := by
  rw [List.getD_eq_getElem?_getD, List.getElem?_map, List.getElem?_range h]
  rfl

/-- Claim C7: when a monthly analysis has at least 6 active months, the
6-month trend series has the same length as the input series, and its
element at index `i` is the arithmetic mean of the last `min (i+1) 6` input
elements — the mean of the first `i+1` elements while `i < 5`, the mean of
the window of 6 elements ending at `i` afterwards. -/
theorem c7_moving_average_spec (averages : List ℚ) (i : ℕ)
    (h6 : 6 ≤ averages.length) (hi : i < averages.length) :
    (moving_avg averages).length = averages.length
      ∧ (moving_avg averages).getD i 0
          = ((averages.take (i + 1)).drop (i + 1 - min (i + 1) 6)).sum
              / ((min (i + 1) 6 : ℕ) : ℚ) := by
  constructor
  · simp [moving_avg]
  · rw [moving_avg, getD_map_range _ _ _ hi]
    by_cases h5 : i < window_size - 1
    · have hm : min (i + 1) 6 = i + 1 := by
        unfold window_size at h5
        omega
      rw [if_pos h5, hm, Nat.sub_self, List.drop_zero]
    · have h5n : 5 ≤ i := by
        unfold window_size at h5
        omega
      have hm : min (i + 1) 6 = 6 := by omega
      have h1 : i - (window_size - 1) + window_size = i + 1 := by
        unfold window_size
        omega
      have h2 : i + 1 - 6 = i - (window_size - 1) := by
        unfold window_size
        omega
      rw [if_neg h5, hm, h2, List.take_drop, h1]
      norm_num [window_size]

/-- Witness for C7 at the concrete series `[1, 2, 3, 4, 5, 6]`, index 5. -/
theorem c7_moving_average_spec_witness :
    6 ≤ ([1, 2, 3, 4, 5, 6] : List ℚ).length
      ∧ 5 < ([1, 2, 3, 4, 5, 6] : List ℚ).length
      ∧ ((moving_avg [1, 2, 3, 4, 5, 6]).length = ([1, 2, 3, 4, 5, 6] : List ℚ).length
        ∧ (moving_avg [1, 2, 3, 4, 5, 6]).getD 5 0
            = ((([1, 2, 3, 4, 5, 6] : List ℚ).take (5 + 1)).drop (5 + 1 - min (5 + 1) 6)).sum
                / ((min (5 + 1) 6 : ℕ) : ℚ)) :=
  ⟨by norm_num, by norm_num,
    c7_moving_average_spec [1, 2, 3, 4, 5, 6] 5 (by norm_num) (by norm_num)⟩

/-! ## HTTP request control flow

Every network interaction in the six scripts is a `requests.post(...)`
immediately followed by `resp.raise_for_status()`.  We model executions as
traces of events.  Three shapes occur:

* a single request (`fetch_commit_contributions_2025.py`, the user-info
  queries of the other scripts, each call of
  `fetch_and_display_contributions` in `yearly_contribution_summary.py`);
* the per-year loops of `monthly_productivity_analysis.py` and
  `lifetime_contribution_analysis.py`, which have no `try`/`except`: a
  raised `raise_for_status` aborts the script, and a JSON-level error makes
  the loop `continue` with the next year;
* the cursor-pagination loops of `monthly_code_metrics_analysis.py` and
  `work_summary.py`, wrapped in `try`/`except` whose handler `break`s.

The environment is a function from the request index (year or page number)
to the response.  `PageResp.ok` is `response.ok` (`raise_for_status` raises
iff it is false); `PageResp.continu` abstracts the conditions under which
the loop body reaches the next iteration (`"errors" not in data`, and
`pageInfo["hasNextPage"]` — for `work_summary.py` also that the date-range
early stop did not trigger).  `fuel` bounds the number of iterations.
-/

/-- One observable HTTP event. -/
inductive Ev where
  | req (method url : String) (idx : ℕ)
  | raiseForStatus
deriving DecidableEq

/-- The only URL occurring in any of the scripts. -/
def endpoint : String := "https://api.github.com/graphql"

/-- A response, as far as the loop control flow observes it. -/
structure PageResp where
  ok : Bool
  continu : Bool

/-- A single `requests.post` + `raise_for_status` pair, as issued by
`fetch_commit_contributions_2025.py` and by the user-info queries. -/
def singleRequestTrace : List Ev :=
  [Ev.req "POST" endpoint 0, Ev.raiseForStatus]

/-- The per-year loops of `monthly_productivity_analysis.py` and
`lifetime_contribution_analysis.py`: one POST and one `raise_for_status`
per year; a non-ok response propagates out of the loop
(no `try`/`except`), a JSON `"errors"` member `continue`s. -/
def yearLoopTrace (okResp : ℕ → Bool) : ℕ → ℕ → List Ev
  | _, 0 => []
  | y, n + 1 =>
    Ev.req "POST" endpoint y :: Ev.raiseForStatus ::
      (if okResp y then yearLoopTrace okResp (y + 1) n else [])

/-- The cursor-pagination loops of `monthly_code_metrics_analysis.py` and
`work_summary.py`: one POST and one `raise_for_status` per page; an
exception is caught and `break`s, and the loop continues only while the
page allows it. -/
def pageLoopTrace (pages : ℕ → PageResp) : ℕ → ℕ → List Ev
  | _, 0 => []
  | i, fuel + 1 =>
    Ev.req "POST" endpoint i :: Ev.raiseForStatus ::
      (if (pages i).ok && (pages i).continu then pageLoopTrace pages (i + 1) fuel
       else [])

/-- `k` consecutive request/`raise_for_status` pairs starting at index `i`. -/
def pairSeq : ℕ → ℕ → List Ev
  | _, 0 => []
  | i, k + 1 => Ev.req "POST" endpoint i :: Ev.raiseForStatus :: pairSeq (i + 1) k

/-- Whether an event is an HTTP request. -/
def Ev.isReq : Ev → Bool
  | .req _ _ _ => true
  | .raiseForStatus => false

/-- Whether an event is a `raise_for_status` call. -/
def Ev.isRaise : Ev → Bool
  | .req _ _ _ => false
  | .raiseForStatus => true

/-- The indices (cursor/year positions) of the requests of a trace, in order. -/
def reqIdxs : List Ev → List ℕ
  | [] => []
  | Ev.req _ _ i :: t => i :: reqIdxs t
  | Ev.raiseForStatus :: t => reqIdxs t

theorem pairSeq_req_count (i k : ℕ) :
    ((pairSeq i k).filter Ev.isReq).length = k := by
  induction k generalizing i with
  | zero => rfl
  | succ k ih => simp [pairSeq, List.filter_cons, Ev.isReq, ih]

theorem pairSeq_raise_count (i k : ℕ) :
    ((pairSeq i k).filter Ev.isRaise).length = k := by
  induction k generalizing i with
  | zero => rfl
  | succ k ih => simp [pairSeq, List.filter_cons, Ev.isRaise, ih]

theorem pairSeq_reqIdxs (i k : ℕ) : reqIdxs (pairSeq i k) = List.range' i k := by
  induction k generalizing i with
  | zero => rfl
  | succ k ih => simp [pairSeq, reqIdxs, ih, List.range'_succ]

/-- The page-pagination loop produces `k ≤ fuel` request/check pairs at
consecutive indices, and every request that is not the last one got an ok
response (a failed request ends the loop: it is never reissued). -/
theorem pageLoopTrace_shape (pages : ℕ → PageResp) :
    ∀ fuel i, ∃ k, k ≤ fuel
      ∧ pageLoopTrace pages i fuel = pairSeq i k
      ∧ (∀ j, j + 1 < k →
          (pages (i + j)).ok = true ∧ (pages (i + j)).continu = true) := by
  intro fuel
  induction fuel with
  | zero => exact fun i => ⟨0, Nat.le_refl 0, rfl, fun j hj => absurd hj (by omega)⟩
  | succ fuel ih =>
    intro i
    by_cases h : (pages i).ok && (pages i).continu
    · obtain ⟨k, hk, htr, hok⟩ := ih (i + 1)
      refine ⟨k + 1, by omega, ?_, ?_⟩
      · rw [pageLoopTrace, if_pos h, htr, pairSeq]
      · intro j hj
        match j with
        | 0 =>
          simpa using And.intro (Bool.and_elim_left h) (Bool.and_elim_right h)
        | j + 1 =>
          have := hok j (by omega)
          simpa [Nat.add_assoc, Nat.add_comm 1 j] using this
    · refine ⟨1, by omega, ?_, fun j hj => absurd hj (by omega)⟩
      rw [pageLoopTrace, if_neg h, pairSeq, pairSeq]

/-- The per-year loop produces `k ≤ fuel` request/check pairs at consecutive
indices, and every request that is not the last one got an ok response. -/
theorem yearLoopTrace_shape (okResp : ℕ → Bool) :
    ∀ fuel y, ∃ k, k ≤ fuel
      ∧ yearLoopTrace okResp y fuel = pairSeq y k
      ∧ (∀ j, j + 1 < k → okResp (y + j) = true) := by
  intro fuel
  induction fuel with
  | zero => exact fun y => ⟨0, Nat.le_refl 0, rfl, fun j hj => absurd hj (by omega)⟩
  | succ fuel ih =>
    intro y
    by_cases h : okResp y
    · obtain ⟨k, hk, htr, hok⟩ := ih (y + 1)
      refine ⟨k + 1, by omega, ?_, ?_⟩
      · rw [yearLoopTrace, if_pos h, htr, pairSeq]
      · intro j hj
        match j with
        | 0 => simpa using h
        | j + 1 =>
          have := hok j (by omega)
          simpa [Nat.add_assoc, Nat.add_comm 1 j] using this
    · refine ⟨1, by omega, ?_, fun j hj => absurd hj (by omega)⟩
      rw [yearLoopTrace, if_neg h, pairSeq, pairSeq]

theorem pairSeq_req_mem {mth u : String} {n : ℕ} :
    ∀ i k, Ev.req mth u n ∈ pairSeq i k → mth = "POST" ∧ u = endpoint := by
  intro i k
  induction k generalizing i with
  | zero => intro h; cases h
  | succ k ih =>
    intro h
    rcases List.mem_cons.mp h with he | h2
    · injection he with h1 h2 h3
      exact ⟨h1, h2⟩
    · rcases List.mem_cons.mp h2 with he | h3
      · cases he
      · exact ih (i + 1) h3

/-- Claim C4: each HTTP request any script issues is followed by exactly one
`raise_for_status` call (every trace is a sequence of request/check pairs,
with as many checks as requests), a request that fails is never reissued
(request indices are duplicate-free, and every request other than the last
one of a trace received an ok response), and no other recovery action is
taken (a non-ok or error response simply ends the loop / the script). -/
theorem c4_one_raise_per_request_no_retry :
    (∀ (pages : ℕ → PageResp) (fuel i : ℕ), ∃ k, k ≤ fuel
      ∧ pageLoopTrace pages i fuel = pairSeq i k
      ∧ ((pageLoopTrace pages i fuel).filter Ev.isReq).length = k
      ∧ ((pageLoopTrace pages i fuel).filter Ev.isRaise).length = k
      ∧ (reqIdxs (pageLoopTrace pages i fuel)).Nodup
      ∧ (∀ j, j + 1 < k →
          (pages (i + j)).ok = true ∧ (pages (i + j)).continu = true))
    ∧ (∀ (okResp : ℕ → Bool) (fuel y : ℕ), ∃ k, k ≤ fuel
      ∧ yearLoopTrace okResp y fuel = pairSeq y k
      ∧ ((yearLoopTrace okResp y fuel).filter Ev.isReq).length = k
      ∧ ((yearLoopTrace okResp y fuel).filter Ev.isRaise).length = k
      ∧ (reqIdxs (yearLoopTrace okResp y fuel)).Nodup
      ∧ (∀ j, j + 1 < k → okResp (y + j) = true))
    ∧ (singleRequestTrace.filter Ev.isReq).length = 1
    ∧ (singleRequestTrace.filter Ev.isRaise).length = 1 := by
  refine ⟨?_, ?_, by decide, by decide⟩
  · intro pages fuel i
    obtain ⟨k, hk, htr, hok⟩ := pageLoopTrace_shape pages fuel i
    refine ⟨k, hk, htr, ?_, ?_, ?_, hok⟩
    · rw [htr, pairSeq_req_count]
    · rw [htr, pairSeq_raise_count]
    · rw [htr, pairSeq_reqIdxs]
      exact List.nodup_range' _ _
  · intro okResp fuel y
    obtain ⟨k, hk, htr, hok⟩ := yearLoopTrace_shape okResp fuel y
    refine ⟨k, hk, htr, ?_, ?_, ?_, hok⟩
    · rw [htr, pairSeq_req_count]
    · rw [htr, pairSeq_raise_count]
    · rw [htr, pairSeq_reqIdxs]
      exact List.nodup_range' _ _

/-- Claim C8: every HTTP request issued by every script, on every execution
and every iteration of its loops, is a POST to
`https://api.github.com/graphql`; no other URL is ever contacted. -/
theorem c8_fixed_endpoint :
    (∀ (pages : ℕ → PageResp) (fuel i : ℕ) (mth u : String) (n : ℕ),
      Ev.req mth u n ∈ pageLoopTrace pages i fuel → mth = "POST" ∧ u = endpoint)
    ∧ (∀ (okResp : ℕ → Bool) (fuel y : ℕ) (mth u : String) (n : ℕ),
      Ev.req mth u n ∈ yearLoopTrace okResp y fuel → mth = "POST" ∧ u = endpoint)
    ∧ (∀ (mth u : String) (n : ℕ),
      Ev.req mth u n ∈ singleRequestTrace → mth = "POST" ∧ u = endpoint) := by
  refine ⟨?_, ?_, ?_⟩
  · intro pages fuel i mth u n hmem
    obtain ⟨k, _, htr, _⟩ := pageLoopTrace_shape pages fuel i
    rw [htr] at hmem
    exact pairSeq_req_mem i k hmem
  · intro okResp fuel y mth u n hmem
    obtain ⟨k, _, htr, _⟩ := yearLoopTrace_shape okResp fuel y
    rw [htr] at hmem
    exact pairSeq_req_mem y k hmem
  · intro mth u n hmem
    rcases List.mem_cons.mp hmem with he | h2
    · injection he with h1 h2 h3
      exact ⟨h1, h2⟩
    · rcases List.mem_cons.mp h2 with he | h3
      · cases he
      · cases h3

/-! ## `work_summary.py`: the period filter of the PR pagination loop

Timestamps (`createdAt`, `updatedAt`, `start_date`, `end_date`) are modelled
as integers (e.g. Unix seconds); only their ordering matters to the filter:

    if (start_date <= created_at <= end_date) or (start_date <= updated_at <= end_date):
        all_prs.append(pr)
    if created_at < start_date and updated_at < start_date:
        has_next = False
        break
-/

namespace WorkSummary

/-- One PR node, reduced to the two timestamps the period filter reads. -/
structure PRNode where
  createdAt : ℤ
  updatedAt : ℤ
deriving DecidableEq

/-- The period filter: the PR was created or updated within
`[start_date, end_date]`. -/
def inPeriod (start_date end_date : ℤ) (pr : PRNode) : Prop :=
  (start_date ≤ pr.createdAt ∧ pr.createdAt ≤ end_date)
    ∨ (start_date ≤ pr.updatedAt ∧ pr.updatedAt ≤ end_date)

instance (start_date end_date : ℤ) (pr : PRNode) :
    Decidable (inPeriod start_date end_date pr) := by
  unfold inPeriod
  infer_instance

/-- The inner `for pr in prs` loop over one page: returns the PRs appended
to `all_prs` and whether the loop may continue to the next page (`false`
when the `created_at < start_date and updated_at < start_date` early stop
fired). -/
def filterPage (start_date end_date : ℤ) : List PRNode → List PRNode × Bool
  | [] => ([], true)
  | pr :: rest =>
    let kept : List PRNode :=
      if inPeriod start_date end_date pr then [pr] else []
    if pr.createdAt < start_date ∧ pr.updatedAt < start_date then
      (kept, false)
    else
      let r := filterPage start_date end_date rest
      (kept ++ r.1, r.2)

/-- One page of the paginated response, as the loop observes it. -/
structure PRPage where
  ok : Bool
  hasErrors : Bool
  nodes : List PRNode
  hasNextPage : Bool
deriving DecidableEq

/-- The `while has_next` pagination loop accumulating `all_prs`: a non-ok
response raises (caught: `break`), a JSON error `break`s, the date early
stop clears `has_next`, and otherwise the loop follows `hasNextPage`. -/
def fetchLoop (start_date end_date : ℤ) (pages : ℕ → PRPage) :
    ℕ → ℕ → List PRNode → List PRNode
  | _, 0, all_prs => all_prs
  | i, fuel + 1, all_prs =>
    let pg := pages i
    if pg.ok then
      if pg.hasErrors then all_prs
      else
        let r := filterPage start_date end_date pg.nodes
        let acc2 := all_prs ++ r.1
        if r.2 && pg.hasNextPage then
          fetchLoop start_date end_date pages (i + 1) fuel acc2
        else acc2
    else all_prs

theorem filterPage_sound (start_date end_date : ℤ) :
    ∀ nodes : List PRNode,
      ∀ pr ∈ (filterPage start_date end_date nodes).1,
        inPeriod start_date end_date pr := by
  intro nodes
  induction nodes with
  | nil => intro pr h; cases h
  | cons x rest ih =>
    intro pr h
    by_cases hstop : x.createdAt < start_date ∧ x.updatedAt < start_date
    · rw [filterPage] at h
      simp only [if_pos hstop] at h
      by_cases hk : inPeriod start_date end_date x
      · simp only [if_pos hk, List.mem_singleton] at h
        rw [h]
        exact hk
      · simp only [if_neg hk] at h
        cases h
    · rw [filterPage] at h
      simp only [if_neg hstop] at h
      rcases List.mem_append.mp h with h1 | h2
      · by_cases hk : inPeriod start_date end_date x
        · simp only [if_pos hk, List.mem_singleton] at h1
          rw [h1]
          exact hk
        · simp only [if_neg hk] at h1
          cases h1
      · exact ih pr h2

/-- Claim C9: loop invariant of the `work_summary.py` pagination loop.  If
every PR accumulated so far satisfies the period filter, then after
processing any number of further pages every PR of the accumulated list
still does: elements are only ever appended after passing the filter. -/
theorem c9_work_summary_period_filter_invariant
    (start_date end_date : ℤ) (pages : ℕ → PRPage) (fuel i : ℕ)
    (all_prs : List PRNode)
    (hacc : ∀ pr ∈ all_prs, inPeriod start_date end_date pr) :
    ∀ pr ∈ fetchLoop start_date end_date pages i fuel all_prs,
      inPeriod start_date end_date pr := by
  induction fuel generalizing i all_prs with
  | zero => exact hacc
  | succ fuel ih =>
    intro pr h
    rw [fetchLoop] at h
    by_cases hok : (pages i).ok
    · simp only [if_pos hok] at h
      by_cases herr : (pages i).hasErrors
      · simp only [if_pos herr] at h
        exact hacc pr h
      · simp only [if_neg herr] at h
        have hacc2 : ∀ q ∈ all_prs ++ (filterPage start_date end_date (pages i).nodes).1,
            inPeriod start_date end_date q := by
          intro q hq
          rcases List.mem_append.mp hq with h1 | h2
          · exact hacc q h1
          · exact filterPage_sound start_date end_date (pages i).nodes q h2
        by_cases hnext : (filterPage start_date end_date (pages i).nodes).2
            && (pages i).hasNextPage
        · simp only [hnext, if_pos] at h
          exact ih (i + 1) _ hacc2 pr h
        · simp only [Bool.not_eq_true] at hnext
          simp only [hnext] at h
          exact hacc2 pr h
    · simp only [if_neg hok] at h
      exact hacc pr h

end WorkSummary

/-- Witness for C9 at a concrete run: period `[0, 10]`, one page holding one
PR inside the period and one older PR that triggers the early stop. -/
theorem c9_work_summary_period_filter_invariant_witness :
    (∀ pr ∈ ([] : List WorkSummary.PRNode), WorkSummary.inPeriod 0 10 pr)
      ∧ ∀ pr ∈ WorkSummary.fetchLoop 0 10
          (fun _ => ⟨true, false, [⟨5, 20⟩, ⟨-3, -1⟩], true⟩) 0 3 [],
        WorkSummary.inPeriod 0 10 pr :=
  ⟨(by intro pr h; cases h),
    WorkSummary.c9_work_summary_period_filter_invariant 0 10
      (fun _ => ⟨true, false, [⟨5, 20⟩, ⟨-3, -1⟩], true⟩) 3 0 []
      (by intro pr h; cases h)⟩

/-! ## File-writing behaviour

`work_summary.py` writes the rendered summary to `args.export` only when
`--export` was supplied (lines 399–402).  The two monthly scripts, however,
unconditionally execute `with open("monthly_productivity_data.json", "w")`
resp. `with open("monthly_code_metrics_data.json", "w")` at the end of every
completed run — neither even defines an export option.  The three remaining
scripts never open a file.  `completedRun` abstracts whether control reaches
the end of the script (no early `exit`, no uncaught exception).
-/

/-- The argparse arguments of `monthly_productivity_analysis.py` and
`monthly_code_metrics_analysis.py` (`-u`, `-t`, `--detailed`,
`--workdays-per-week`; there is no export option). -/
structure MonthlyArgs where
  user : String
  token : Option String
  detailed : Bool
  workdays_per_week : ℤ
deriving DecidableEq

/-- The output-relevant argparse arguments of `work_summary.py`. -/
structure WorkSummaryArgs where
  user : String
  token : Option String
  exportPath : Option String
  includeStats : Bool
deriving DecidableEq

/-- The argparse arguments of `fetch_commit_contributions_2025.py`. -/
structure FetchArgs where
  user : String
  token : Option String
deriving DecidableEq

/-- The argparse arguments of `yearly_contribution_summary.py`. -/
structure YearlyArgs where
  user : String
  token : Option String
  year : Option ℤ
  allYears : Bool
deriving DecidableEq

/-- Files created by a run of `monthly_productivity_analysis.py`. -/
def prodFilesWritten (_ : MonthlyArgs) (completedRun : Bool) : List String :=
  if completedRun then ["monthly_productivity_data.json"] else []

/-- Files created by a run of `monthly_code_metrics_analysis.py`. -/
def metricsFilesWritten (_ : MonthlyArgs) (completedRun : Bool) : List String :=
  if completedRun then ["monthly_code_metrics_data.json"] else []

/-- Files created by a run of `work_summary.py`. -/
def workSummaryFilesWritten (args : WorkSummaryArgs) (completedRun : Bool) :
    List String :=
  if completedRun then
    (match args.exportPath with
      | some p => [p]
      | none => [])
  else []

/-- Files created by a run of `fetch_commit_contributions_2025.py`. -/
def fetchFilesWritten (_ : FetchArgs) : List String := []

/-- Files created by a run of `yearly_contribution_summary.py`. -/
def yearlyFilesWritten (_ : YearlyArgs) : List String := []

/-- Files created by a run of `lifetime_contribution_analysis.py`. -/
def lifetimeFilesWritten : List String := []

/-- Claim C5, counterexample: a completed run of
`monthly_productivity_analysis.py` with no export-requesting option (the
script has none) still creates `monthly_productivity_data.json`, and
likewise `monthly_code_metrics_analysis.py` creates
`monthly_code_metrics_data.json`. -/
theorem c5_counterexample_unconditional_export :
    prodFilesWritten ⟨"octocat", none, false, 5⟩ true
        = ["monthly_productivity_data.json"]
      ∧ prodFilesWritten ⟨"octocat", none, false, 5⟩ true ≠ []
      ∧ metricsFilesWritten ⟨"octocat", none, false, 5⟩ true
        = ["monthly_code_metrics_data.json"]
      ∧ metricsFilesWritten ⟨"octocat", none, false, 5⟩ true ≠ [] := by
  refine ⟨rfl, ?_, rfl, ?_⟩ <;> simp [prodFilesWritten, metricsFilesWritten]

/-- Claim C5 as amended: only `work_summary.py` gates its export behind the
`--export` option (no file without it, exactly the requested file with it);
the two monthly scripts write their fixed JSON file on every completed run
regardless of arguments; the other three scripts never create a file. -/
theorem c5_amended_export_behaviour :
    (∀ (args : WorkSummaryArgs) (completedRun : Bool),
      args.exportPath = none → workSummaryFilesWritten args completedRun = [])
    ∧ (∀ (args : WorkSummaryArgs) (p : String),
      args.exportPath = some p → workSummaryFilesWritten args true = [p])
    ∧ (∀ args : MonthlyArgs,
      prodFilesWritten args true = ["monthly_productivity_data.json"])
    ∧ (∀ args : MonthlyArgs,
      metricsFilesWritten args true = ["monthly_code_metrics_data.json"])
    ∧ (∀ args : FetchArgs, fetchFilesWritten args = [])
    ∧ (∀ args : YearlyArgs, yearlyFilesWritten args = [])
    ∧ lifetimeFilesWritten = [] := by
  refine ⟨?_, ?_, fun _ => rfl, fun _ => rfl, fun _ => rfl, fun _ => rfl, rfl⟩
  · intro args completedRun h
    cases completedRun <;> simp [workSummaryFilesWritten, h]
  · intro args p h
    simp [workSummaryFilesWritten, h]

/-- Witness for the amended C5 at concrete arguments. -/
theorem c5_amended_export_behaviour_witness :
    (⟨"octocat", none, none, false⟩ : WorkSummaryArgs).exportPath = none
      ∧ workSummaryFilesWritten ⟨"octocat", none, none, false⟩ true = [] :=
  ⟨rfl, c5_amended_export_behaviour.1 ⟨"octocat", none, none, false⟩ true rfl⟩

/-! ## Command-line arguments and the GraphQL `login` variable

Five scripts declare `parser.add_argument('-u', '--user', required=True)`
and pass `args.user` as the `login` variable of every GraphQL query they
issue.  `lifetime_contribution_analysis.py` declares no parser at all and
sends the literal login `"joelbrostrom"` in both of its queries.
-/

/-- The `-u`/`--user` value argparse extracts from the argument vector (the
last occurrence wins, as in argparse; `none` when the required option is
missing, in which case argparse aborts the script). -/
def parseUser : List String → Option String
  | [] => none
  | "-u" :: v :: rest =>
    (match parseUser rest with
      | some u => some u
      | none => some v)
  | "--user" :: v :: rest =>
    (match parseUser rest with
      | some u => some u
      | none => some v)
  | _ :: rest => parseUser rest

/-- A GraphQL call, reduced to the endpoint URL and the `login` variable
sent in `variables`. -/
structure GqlRequest where
  url : String
  login : String
deriving DecidableEq

/-- The request `fetch_commit_contributions_2025.py` issues, as a function
of the argument vector (`variables = {"login": args.user, ...}`). -/
def fetchRequest (argv : List String) : Option GqlRequest :=
  (parseUser argv).map (fun u => ⟨endpoint, u⟩)

/-- The requests `monthly_productivity_analysis.py` issues (user-info query
and every per-year calendar query all send `"login": args.user`). -/
def prodRequest (argv : List String) : Option GqlRequest :=
  (parseUser argv).map (fun u => ⟨endpoint, u⟩)

/-- The requests `monthly_code_metrics_analysis.py` issues. -/
def metricsRequest (argv : List String) : Option GqlRequest :=
  (parseUser argv).map (fun u => ⟨endpoint, u⟩)

/-- The requests `work_summary.py` issues. -/
def workSummaryRequest (argv : List String) : Option GqlRequest :=
  (parseUser argv).map (fun u => ⟨endpoint, u⟩)

/-- The requests `yearly_contribution_summary.py` issues (both
`get_account_creation_year` and `fetch_and_display_contributions` receive
`username = args.user`). -/
def yearlyRequest (argv : List String) : Option GqlRequest :=
  (parseUser argv).map (fun u => ⟨endpoint, u⟩)

/-- The requests `lifetime_contribution_analysis.py` issues: the script
parses no arguments and hardcodes `"login": "joelbrostrom"`. -/
def lifetimeRequest (_argv : List String) : GqlRequest :=
  ⟨endpoint, "joelbrostrom"⟩

/-- Claim C6, counterexample: invoked as `-u octocat`,
`lifetime_contribution_analysis.py` still queries the login
`"joelbrostrom"`, not the username supplied on the command line. -/
theorem c6_counterexample_lifetime_hardcoded_login :
    (lifetimeRequest ["-u", "octocat"]).login = "joelbrostrom"
      ∧ (lifetimeRequest ["-u", "octocat"]).login ≠ "octocat" := by
  exact ⟨rfl, by decide⟩

/-- Claim C6 as amended: the five argparse scripts send exactly the
`-u`/`--user` username from the command line as the GraphQL `login`;
`lifetime_contribution_analysis.py` parses no arguments and always sends
the hardcoded login `"joelbrostrom"`. -/
theorem c6_amended_login_from_argv (argv : List String) (u : String)
    (h : parseUser argv = some u) :
    fetchRequest argv = some ⟨endpoint, u⟩
      ∧ prodRequest argv = some ⟨endpoint, u⟩
      ∧ metricsRequest argv = some ⟨endpoint, u⟩
      ∧ workSummaryRequest argv = some ⟨endpoint, u⟩
      ∧ yearlyRequest argv = some ⟨endpoint, u⟩
      ∧ lifetimeRequest argv = ⟨endpoint, "joelbrostrom"⟩ := by
  unfold fetchRequest prodRequest metricsRequest workSummaryRequest yearlyRequest
  rw [h]
  exact ⟨rfl, rfl, rfl, rfl, rfl, rfl⟩

/-- Witness for the amended C6 at the concrete argument vector
`["-u", "octocat"]`. -/
theorem c6_amended_login_from_argv_witness :
    parseUser ["-u", "octocat"] = some "octocat"
      ∧ fetchRequest ["-u", "octocat"] = some ⟨endpoint, "octocat"⟩ :=
  ⟨rfl, (c6_amended_login_from_argv ["-u", "octocat"] "octocat" rfl).1⟩

/-! ## Division sites and their zero guards

To settle the division-safety claim, every quotient the scripts compute is
re-expressed through `checkedDiv`, which returns `none` exactly when the
divisor is zero.  Each site keeps the guard the Python code puts around it
(an `if`-guard yielding `0`/a sentinel, or a branch that is only reached
when the relevant list is nonempty); a `some` result means the division by
zero is unreachable at that site.  Sites that divide by a nonzero literal
(`/ 7.0`, `/ 3`, `// 20`) are omitted as nonzero by construction.
-/

/-- Division flagging a zero divisor instead of Python's
`ZeroDivisionError`. -/
def checkedDiv (a b : ℚ) : Option ℚ :=
  if b = 0 then none else some (a / b)

theorem checkedDiv_isSome (a b : ℚ) (h : b ≠ 0) : (checkedDiv a b).isSome := by
  simp [checkedDiv, h]

namespace FetchCommitContributions

/-- One contribution-calendar day of `fetch_commit_contributions_2025.py`. -/
structure Day where
  date : Date
  count : ℤ
deriving DecidableEq

/-- `weekday_counts[wd]`: contributions accumulated per weekday name. -/
def weekday_counts (days : List Day) (wd : String) : ℤ :=
  ((days.filter (fun d => weekdayName d.date = wd)).map (fun d => d.count)).sum

/-- `weekday_total_days[wd]`: all days (including 0-contribution days). -/
def weekday_total_days (days : List Day) (wd : String) : ℕ :=
  (days.filter (fun d => weekdayName d.date = wd)).length

/-- `avg = contribs / total_days if total_days else 0`, with the division
checked. -/
def avg_checked (days : List Day) (wd : String) : Option ℚ :=
  if weekday_total_days days wd ≠ 0 then
    checkedDiv (weekday_counts days wd : ℚ) (weekday_total_days days wd : ℚ)
  else some 0

end FetchCommitContributions

namespace YearlyContributionSummary

/-- One contribution-calendar day of `yearly_contribution_summary.py`. -/
structure Day where
  date : Date
  count : ℤ
deriving DecidableEq

/-- `weekday_counts[wd]` of `fetch_and_display_contributions`. -/
def weekday_counts (days : List Day) (wd : String) : ℤ :=
  ((days.filter (fun d => weekdayName d.date = wd)).map (fun d => d.count)).sum

/-- `weekday_total_days[wd]` of `fetch_and_display_contributions`. -/
def weekday_total_days (days : List Day) (wd : String) : ℕ :=
  (days.filter (fun d => weekdayName d.date = wd)).length

/-- `avg = contribs / total_days if total_days else 0`, checked. -/
def avg_checked (days : List Day) (wd : String) : Option ℚ :=
  if weekday_total_days days wd ≠ 0 then
    checkedDiv (weekday_counts days wd : ℚ) (weekday_total_days days wd : ℚ)
  else some 0

end YearlyContributionSummary

namespace LifetimeContributionAnalysis

/-- The value `calc_pct` renders: `"N/A"`, `"+∞"`, or a percentage. -/
inductive PctResult where
  | na
  | posInf
  | pct (q : ℚ)
deriving DecidableEq

/-- `calc_pct(curr_val, prev_val)` of the percentage-change table, with its
division checked:

    if prev_val == 0: return "N/A" if curr_val == 0 else "+∞"
    pct = ((curr_val - prev_val) / prev_val) * 100
-/
def calc_pct_checked (curr_val prev_val : ℤ) : Option PctResult :=
  if prev_val = 0 then some (if curr_val = 0 then .na else .posInf)
  else
    (checkedDiv ((curr_val : ℚ) - (prev_val : ℚ)) (prev_val : ℚ)).map
      (fun q => .pct (q * 100))

/-- The `(change / prev * 100) if prev > 0 else 0` pattern of the
year-over-year growth section and of `overall_pct`, checked. -/
def growth_pct_checked (curr_val prev_val : ℤ) : Option ℚ :=
  if 0 < prev_val then
    (checkedDiv ((curr_val : ℚ) - (prev_val : ℚ)) (prev_val : ℚ)).map
      (fun q => q * 100)
  else some 0

/-- `avg_per_year = total_all / years_active if years_active > 0 else 0`,
checked. -/
def avg_per_year_checked (total_all : ℤ) (years_active : ℕ) : Option ℚ :=
  if 0 < years_active then
    checkedDiv (total_all : ℚ) (years_active : ℚ)
  else some 0

end LifetimeContributionAnalysis

namespace MonthlyProductivityAnalysis

/-- `avg_per_workday`, with its division checked (guard
`if total_workdays > 0 else 0`). -/
def avg_per_workday_checked (all_contributions : List ContribDay) (m : ℕ × ℕ)
    (workdays_per_week : ℚ) : Option ℚ :=
  if total_workdays all_contributions m workdays_per_week > 0 then
    checkedDiv (monthly_total all_contributions m : ℚ)
      (total_workdays all_contributions m workdays_per_week)
  else some 0

/-- `overall_avg = sum(all_averages) / len(all_averages)`, computed only
inside `if all_averages:`; the outer `some none` is the skipped branch,
checked. -/
def overall_avg_checked (monthly_avgs : List ℚ) : Option (Option ℚ) :=
  let all_averages := monthly_avgs.filter (fun a => 0 < a)
  if all_averages = [] then some none
  else (checkedDiv all_averages.sum (all_averages.length : ℚ)).map some

/-- `recent_months = monthly_data[-12:] if len(monthly_data) >= 12 else
monthly_data; recent_avg = sum / len(recent_months) if recent_months else 0`,
checked. -/
def recent_avg_checked (monthly_avgs : List ℚ) : Option ℚ :=
  let recent_months :=
    if monthly_avgs.length ≥ 12 then monthly_avgs.drop (monthly_avgs.length - 12)
    else monthly_avgs
  if recent_months ≠ [] then
    checkedDiv recent_months.sum (recent_months.length : ℚ)
  else some 0

/-- `recent_12 = active_months[-12:] ...; recent_avg = sum / len(recent_12)`,
computed only inside `if active_months:`, checked. -/
def recent12_avg_checked (active_months : List ℚ) : Option (Option ℚ) :=
  if active_months = [] then some none
  else
    let recent_12 :=
      if active_months.length ≥ 12 then
        active_months.drop (active_months.length - 12)
      else active_months
    (checkedDiv recent_12.sum (recent_12.length : ℚ)).map some

/-- `improvement = ((recent_avg - older_avg) / older_avg) * 100`, computed
only inside `if older_avg > 0:` — the same pattern guards `recent_trend` —
checked. -/
def improvement_checked (recent_avg older_avg : ℚ) : Option ℚ :=
  if 0 < older_avg then
    (checkedDiv (recent_avg - older_avg) older_avg).map (fun q => q * 100)
  else some 0

/-- The `moving_avg` entries with their divisions checked (divisors `i + 1`
and `window_size`). -/
def moving_avg_checked (averages : List ℚ) : List (Option ℚ) :=
  (List.range averages.length).map fun i =>
    if i < window_size - 1 then
      checkedDiv (averages.take (i + 1)).sum ((i + 1 : ℕ) : ℚ)
    else
      checkedDiv ((averages.drop (i - (window_size - 1))).take window_size).sum
        ((window_size : ℕ) : ℚ)

/-- `step = max(1, len(labels) // 20)`, the modulus of the x-tick thinning. -/
def plot_label_step (n : ℕ) : ℕ := max 1 (n / 20)

end MonthlyProductivityAnalysis

namespace MonthlyCodeMetricsAnalysis

/-- `avg_additions`, with its division checked (the `avg_deletions` and
`avg_total` sites share the guard and divisor). -/
def avg_additions_checked (all_prs : List PullRequest) (m : ℕ × ℕ)
    (workdays_per_week : ℚ) : Option ℚ :=
  if total_workdays all_prs m workdays_per_week > 0 then
    checkedDiv (monthly_additions all_prs m : ℚ)
      (total_workdays all_prs m workdays_per_week)
  else some 0

/-- `overall_avg_additions = sum(...) / len(active_months)`, computed only
inside `if active_months:` — the deletions/total and `recent_months`
averages share the guard — checked. -/
def overall_avg_additions_checked (active_avgs : List ℚ) : Option (Option ℚ) :=
  if active_avgs = [] then some none
  else (checkedDiv active_avgs.sum (active_avgs.length : ℚ)).map some

end MonthlyCodeMetricsAnalysis

/-- Claim C10: no division by zero is reachable.  Every quotient the scripts
compute — weekday averages, percentage changes, per-workday averages, means
over month lists, moving-average entries — is under a guard that makes its
checked divisor nonzero (the checked computation always returns `some`), and
the `i % step` modulus of the x-tick thinning is positive by construction. -/
theorem c10_no_division_by_zero :
    (∀ (days : List FetchCommitContributions.Day) (wd : String),
      (FetchCommitContributions.avg_checked days wd).isSome)
    ∧ (∀ (days : List YearlyContributionSummary.Day) (wd : String),
      (YearlyContributionSummary.avg_checked days wd).isSome)
    ∧ (∀ curr_val prev_val : ℤ,
      (LifetimeContributionAnalysis.calc_pct_checked curr_val prev_val).isSome)
    ∧ (∀ curr_val prev_val : ℤ,
      (LifetimeContributionAnalysis.growth_pct_checked curr_val prev_val).isSome)
    ∧ (∀ (total_all : ℤ) (years_active : ℕ),
      (LifetimeContributionAnalysis.avg_per_year_checked total_all years_active).isSome)
    ∧ (∀ (all_contributions : List MonthlyProductivityAnalysis.ContribDay)
        (m : ℕ × ℕ) (w : ℚ),
      (MonthlyProductivityAnalysis.avg_per_workday_checked all_contributions m w).isSome)
    ∧ (∀ monthly_avgs : List ℚ,
      (MonthlyProductivityAnalysis.overall_avg_checked monthly_avgs).isSome)
    ∧ (∀ monthly_avgs : List ℚ,
      (MonthlyProductivityAnalysis.recent_avg_checked monthly_avgs).isSome)
    ∧ (∀ active_months : List ℚ,
      (MonthlyProductivityAnalysis.recent12_avg_checked active_months).isSome)
    ∧ (∀ recent_avg older_avg : ℚ,
      (MonthlyProductivityAnalysis.improvement_checked recent_avg older_avg).isSome)
    ∧ (∀ averages : List ℚ,
      ∀ o ∈ MonthlyProductivityAnalysis.moving_avg_checked averages, o.isSome)
    ∧ (∀ n : ℕ, 0 < MonthlyProductivityAnalysis.plot_label_step n)
    ∧ (∀ (all_prs : List MonthlyCodeMetricsAnalysis.PullRequest)
        (m : ℕ × ℕ) (w : ℚ),
      (MonthlyCodeMetricsAnalysis.avg_additions_checked all_prs m w).isSome)
    ∧ (∀ active_avgs : List ℚ,
      (MonthlyCodeMetricsAnalysis.overall_avg_additions_checked active_avgs).isSome) := by
  refine ⟨?_, ?_, ?_, ?_, ?_, ?_, ?_, ?_, ?_, ?_, ?_, ?_, ?_, ?_⟩
  · intro days wd
    unfold FetchCommitContributions.avg_checked
    by_cases h : FetchCommitContributions.weekday_total_days days wd ≠ 0
    · rw [if_pos h]
      exact checkedDiv_isSome _ _ (Nat.cast_ne_zero.mpr h)
    · rw [if_neg h]
      rfl
  · intro days wd
    unfold YearlyContributionSummary.avg_checked
    by_cases h : YearlyContributionSummary.weekday_total_days days wd ≠ 0
    · rw [if_pos h]
      exact checkedDiv_isSome _ _ (Nat.cast_ne_zero.mpr h)
    · rw [if_neg h]
      rfl
  · intro curr_val prev_val
    unfold LifetimeContributionAnalysis.calc_pct_checked
    by_cases h : prev_val = 0
    · rw [if_pos h]
      rfl
    · rw [if_neg h]
      have hq : ((prev_val : ℚ)) ≠ 0 := Int.cast_ne_zero.mpr h
      simp [checkedDiv, hq]
  · intro curr_val prev_val
    unfold LifetimeContributionAnalysis.growth_pct_checked
    by_cases h : 0 < prev_val
    · rw [if_pos h]
      have hq : ((prev_val : ℚ)) ≠ 0 := Int.cast_ne_zero.mpr (ne_of_gt h)
      simp [checkedDiv, hq]
    · rw [if_neg h]
      rfl
  · intro total_all years_active
    unfold LifetimeContributionAnalysis.avg_per_year_checked
    by_cases h : 0 < years_active
    · rw [if_pos h]
      exact checkedDiv_isSome _ _ (Nat.cast_ne_zero.mpr (Nat.pos_iff_ne_zero.mp h))
    · rw [if_neg h]
      rfl
  · intro all_contributions m w
    unfold MonthlyProductivityAnalysis.avg_per_workday_checked
    by_cases h : MonthlyProductivityAnalysis.total_workdays all_contributions m w > 0
    · rw [if_pos h]
      exact checkedDiv_isSome _ _ (ne_of_gt h)
    · rw [if_neg h]
      rfl
  · intro monthly_avgs
    unfold MonthlyProductivityAnalysis.overall_avg_checked
    by_cases h : monthly_avgs.filter (fun a => 0 < a) = []
    · simp [h]
    · have hlen : ((monthly_avgs.filter (fun a => 0 < a)).length : ℚ) ≠ 0 := by
        have h2 : (monthly_avgs.filter (fun a => 0 < a)).length ≠ 0 := by
          simpa [List.length_eq_zero] using h
        exact_mod_cast h2
      simp [h, checkedDiv, hlen]
  · intro monthly_avgs
    unfold MonthlyProductivityAnalysis.recent_avg_checked
    by_cases h : (if monthly_avgs.length ≥ 12 then
        monthly_avgs.drop (monthly_avgs.length - 12) else monthly_avgs) ≠ []
    · have hlen : (((if monthly_avgs.length ≥ 12 then
          monthly_avgs.drop (monthly_avgs.length - 12)
          else monthly_avgs)).length : ℚ) ≠ 0 := by
        have h2 : ((if monthly_avgs.length ≥ 12 then
            monthly_avgs.drop (monthly_avgs.length - 12)
            else monthly_avgs)).length ≠ 0 := by
          simpa [List.length_eq_zero] using h
        exact_mod_cast h2
      simp only [if_pos h]
      exact checkedDiv_isSome _ _ hlen
    · simp only [if_neg h]
      rfl
  · intro active_months
    unfold MonthlyProductivityAnalysis.recent12_avg_checked
    by_cases h : active_months = []
    · simp [h]
    · have hne : (if active_months.length ≥ 12 then
          active_months.drop (active_months.length - 12)
          else active_months).length ≠ 0 := by
        by_cases h12 : active_months.length ≥ 12
        · rw [if_pos h12, List.length_drop]
          omega
        · rw [if_neg h12]
          simpa [List.length_eq_zero] using h
      have hq : ((if active_months.length ≥ 12 then
          active_months.drop (active_months.length - 12)
          else active_months).length : ℚ) ≠ 0 := by
        exact_mod_cast hne
      simp [h, checkedDiv, hq]
  · intro recent_avg older_avg
    unfold MonthlyProductivityAnalysis.improvement_checked
    by_cases h : 0 < older_avg
    · rw [if_pos h]
      simp [checkedDiv, ne_of_gt h]
    · rw [if_neg h]
      rfl
  · intro averages o ho
    rcases List.mem_map.mp ho with ⟨i, _, rfl⟩
    by_cases h : i < window_size - 1
    · rw [if_pos h]
      refine checkedDiv_isSome _ _ ?_
      exact_mod_cast Nat.succ_ne_zero i
    · rw [if_neg h]
      refine checkedDiv_isSome _ _ ?_
      norm_num [window_size]
  · intro n
    exact lt_of_lt_of_le Nat.one_pos (le_max_left 1 (n / 20))
  · intro all_prs m w
    unfold MonthlyCodeMetricsAnalysis.avg_additions_checked
    by_cases h : MonthlyCodeMetricsAnalysis.total_workdays all_prs m w > 0
    · rw [if_pos h]
      exact checkedDiv_isSome _ _ (ne_of_gt h)
    · rw [if_neg h]
      rfl
  · intro active_avgs
    unfold MonthlyCodeMetricsAnalysis.overall_avg_additions_checked
    by_cases h : active_avgs = []
    · simp [h]
    · have hlen : ((active_avgs.length : ℚ)) ≠ 0 := by
        have h2 : active_avgs.length ≠ 0 := by
          simpa [List.length_eq_zero] using h
        exact_mod_cast h2
      simp [h, checkedDiv, hlen]

/-- Witness for C4 at a concrete environment: every page ok and continuing,
fuel 2, starting index 0. -/
theorem c4_one_raise_per_request_no_retry_witness :
    ∃ k, k ≤ 2
      ∧ pageLoopTrace (fun _ => ⟨true, true⟩) 0 2 = pairSeq 0 k
      ∧ ((pageLoopTrace (fun _ => ⟨true, true⟩) 0 2).filter Ev.isReq).length = k
      ∧ ((pageLoopTrace (fun _ => ⟨true, true⟩) 0 2).filter Ev.isRaise).length = k
      ∧ (reqIdxs (pageLoopTrace (fun _ => ⟨true, true⟩) 0 2)).Nodup
      ∧ (∀ j, j + 1 < k →
          ((fun _ => (⟨true, true⟩ : PageResp)) (0 + j)).ok = true
            ∧ ((fun _ => (⟨true, true⟩ : PageResp)) (0 + j)).continu = true) :=
  c4_one_raise_per_request_no_retry.1 (fun _ => ⟨true, true⟩) 2 0

/-- Witness for C8 at the concrete single-request trace. -/
theorem c8_fixed_endpoint_witness :
    Ev.req "POST" endpoint 0 ∈ singleRequestTrace
      ∧ ("POST" = "POST" ∧ endpoint = endpoint) :=
  ⟨List.mem_cons_self _ _,
    c8_fixed_endpoint.2.2 "POST" endpoint 0 (List.mem_cons_self _ _)⟩

/-- Witness for C10 at a concrete moving-average entry. -/
theorem c10_no_division_by_zero_witness :
    some (1 : ℚ) ∈ MonthlyProductivityAnalysis.moving_avg_checked [1]
      ∧ (some (1 : ℚ)).isSome := by
  have h : MonthlyProductivityAnalysis.moving_avg_checked [1] = [some 1] := by
    norm_num [MonthlyProductivityAnalysis.moving_avg_checked, checkedDiv,
      window_size, List.range_succ]
  have hmem : some (1 : ℚ) ∈ MonthlyProductivityAnalysis.moving_avg_checked [1] := by
    rw [h]
    exact List.mem_cons_self _ _
  exact ⟨hmem, c10_no_division_by_zero.2.2.2.2.2.2.2.2.2.2.1 [1] (some 1) hmem⟩

/-! ## Supporting facts for the week-fraction analysis

In `monthly_productivity_analysis.py` (where each grouped record is one
calendar day) the week fraction really is (tracked days of the week in the
month) / 7, and the fractions of a fully tracked week sum to 1; the defect
exhibited above is specific to `monthly_code_metrics_analysis.py`.
-/

theorem length_filter_comp {α β : Type} (f : α → β) (p : β → Bool) :
    ∀ l : List α, (l.filter (fun x => p (f x))).length = ((l.map f).filter p).length := by
  intro l
  induction l with
  | nil => rfl
  | cons x t ih =>
    by_cases h : p (f x)
    · simp [List.filter_cons, h, ih]
    · simp [List.filter_cons, h, ih]

theorem sum_map_div_const {α : Type} (f : α → ℚ) (c : ℚ) :
    ∀ l : List α, (l.map (fun x => f x / c)).sum = (l.map f).sum / c := by
  intro l
  induction l with
  | nil => simp
  | cons x t ih => simp [ih, add_div]

theorem sum_map_one_eq_length {α : Type} :
    ∀ l : List α, (l.map (fun _ => (1 : ℚ))).sum = (l.length : ℚ) := by
  intro l
  induction l with
  | nil => simp
  | cons x t ih => simp [ih, add_comm]

namespace MonthlyProductivityAnalysis

/-- When each tracked date occurs at most once in `all_contributions` (as in
the fetched contribution calendar), the computed week fraction of week `w`
and month `m` is exactly (number of the week's tracked calendar days that
fall in month `m`) divided by 7. -/
theorem week_fraction_eq_tracked_days (all_contributions : List ContribDay)
    (hnd : (all_contributions.map (fun c => c.date)).Nodup) (w m : ℕ × ℕ) :
    week_fraction all_contributions w m
      = ((((all_contributions.map (fun c => c.date)).dedup.filter
            (fun d => week_key d = w ∧ month_key d = m)).length : ℕ) : ℚ) / 7 := by
  unfold week_fraction days_by_month_count
  rw [List.dedup_eq_self.mpr hnd]
  rw [length_filter_comp (fun c => c.date)
    (fun d => decide (week_key d = w ∧ month_key d = m)) all_contributions]

/-- The other factorisation of the week/month bucket filter. -/
theorem filter_month_within_week (all_contributions : List ContribDay)
    (w m : ℕ × ℕ) :
    all_contributions.filter (fun c => week_key c.date = w ∧ month_key c.date = m)
      = (all_contributions.filter (fun c => week_key c.date = w)).filter
          (fun c => month_key c.date = m) := by
  rw [List.filter_filter]
  refine List.filter_congr (fun c _ => ?_)
  by_cases h1 : week_key c.date = w <;> by_cases h2 : month_key c.date = m <;>
    simp [h1, h2]

set_option maxHeartbeats 1000000 in
/-- For a fully tracked week (7 records, i.e. all 7 days fetched), the week
fractions assigned to the months the week spans sum to 1. -/
theorem full_week_fractions_sum_to_one (all_contributions : List ContribDay)
    (w : ℕ × ℕ) (hfull : total_days_in_week all_contributions w = 7) :
    ((monthKeysOfWeek all_contributions w).map
      (fun m => week_fraction all_contributions w m)).sum = 1 := by
  have hcount : ∀ m : ℕ × ℕ,
      week_fraction all_contributions w m
        = (((all_contributions.filter (fun c => week_key c.date = w)).filter
            (fun c => month_key c.date = m)).map (fun _ => (1 : ℚ))).sum / 7 := by
    intro m
    unfold week_fraction days_by_month_count
    rw [filter_month_within_week, sum_map_one_eq_length]
  have hcov : ∀ c ∈ all_contributions.filter (fun c => week_key c.date = w),
      month_key c.date ∈ monthKeysOfWeek all_contributions w := by
    intro c hc
    unfold monthKeysOfWeek
    rw [List.mem_dedup]
    exact List.mem_map_of_mem (fun c => month_key c.date) hc
  have hfib := sum_fiber (fun c => month_key c.date) (fun _ => (1 : ℚ))
    (monthKeysOfWeek all_contributions w) (List.nodup_dedup _)
    (all_contributions.filter (fun c => week_key c.date = w)) hcov
  calc ((monthKeysOfWeek all_contributions w).map
        (fun m => week_fraction all_contributions w m)).sum
      = ((monthKeysOfWeek all_contributions w).map (fun m =>
          (((all_contributions.filter (fun c => week_key c.date = w)).filter
            (fun c => month_key c.date = m)).map (fun _ => (1 : ℚ))).sum / 7)).sum := by
        exact congrArg List.sum (List.map_congr_left (fun m _ => hcount m))
    _ = ((monthKeysOfWeek all_contributions w).map (fun m =>
          (((all_contributions.filter (fun c => week_key c.date = w)).filter
            (fun c => month_key c.date = m)).map (fun _ => (1 : ℚ))).sum)).sum / 7 := by
        exact sum_map_div_const _ 7 _
    _ = ((all_contributions.filter (fun c => week_key c.date = w)).map
          (fun _ => (1 : ℚ))).sum / 7 := by rw [hfib]
    _ = 1 := by
        rw [sum_map_one_eq_length]
        have : ((all_contributions.filter (fun c => week_key c.date = w)).length : ℚ)
            = (7 : ℚ) := by
          exact_mod_cast congrArg (fun n : ℕ => (n : ℚ)) hfull
        rw [this]
        norm_num

end MonthlyProductivityAnalysis
